import Mathlib

/-!
Verification development for the batch session-scheduling engine of the
learner-circle backend (Node/Express + Sequelize).

The embedding below translates the scheduling service
(services/scheduling.js), the admin session routes (routes/admin.js),
the student dashboard progress computation (routes/session.js) and the
User.getSecureView projection (models) into executable Lean definitions.

Modelling conventions:
- Instants are minutes since the Unix epoch (the code works at minute
  granularity: moment(...).hour(h).minute(m).second(0)).  Generator-side
  instants are Nat (all real scheduling data is post-1970); persisted
  session date-times are Int so that date arithmetic with deltas is exact.
- Weekdays are compared by their English names exactly as the code does
  (moment format "dddd" against schedule[i].day).
- Calendar arithmetic (holiday month/day extraction and the 12-month
  safety bound of the generator, which moment computes on the civil
  calendar) uses the standard civil-from-days / days-from-civil
  conversion on the proleptic Gregorian calendar.
- Database state is an explicit list of rows; each route handler is a
  function from state to (result, state), with every write threaded in
  source order, so that "no mutation on error" is a provable property
  rather than a modelling artifact.
-/

namespace LearnerCircle

/-! ## Civil calendar arithmetic (post-1970 dates) -/

/-- Leap year test on the Gregorian calendar. -/
def isLeapYear (y : Nat) : Bool :=
  y % 4 == 0 && (y % 100 != 0 || y % 400 == 0)

/-- Number of days in a month. -/
def daysInMonth (y m : Nat) : Nat :=
  if m == 2 then (if isLeapYear y then 29 else 28)
  else if m == 4 || m == 6 || m == 9 || m == 11 then 30
  else 31

/-- Convert a day count since 1970-01-01 to a civil (year, month, day) triple. -/
def civilFromDays (day : Nat) : Nat × Nat × Nat :=
  let z := day + 719468
  let era := z / 146097
  let doe := z % 146097
  let yoe := (doe - doe / 1460 + doe / 36524 - doe / 146096) / 365
  let y := yoe + era * 400
  let doy := doe - (365 * yoe + yoe / 4 - yoe / 100)
  let mp := (5 * doy + 2) / 153
  let d := doy - (153 * mp + 2) / 5 + 1
  let m := if mp < 10 then mp + 3 else mp - 9
  (if m ≤ 2 then y + 1 else y, m, d)

/-- Convert a civil (year, month, day) triple (year at least 1970) to a day
count since 1970-01-01. -/
def daysFromCivil (y m d : Nat) : Nat :=
  let y' := if m ≤ 2 then y - 1 else y
  let era := y' / 400
  let yoe := y' % 400
  let doy := (153 * (if 2 < m then m - 3 else m + 9) + 2) / 5 + d - 1
  let doe := yoe * 365 + yoe / 4 - yoe / 100 + doy
  era * 146097 + doe - 719468

/-- Day count of the instant thirteen calendar months after the given day,
clamping the day of month as moment's add(13, months) does.  The source's
safety check currentDate.diff(start, months) greater-than 12 fires exactly
when currentDate has reached start plus 13 calendar months. -/
def addThirteenMonths (day : Nat) : Nat :=
  match civilFromDays day with
  | (y, m, d) =>
    let total := y * 12 + (m - 1) + 13
    let y' := total / 12
    let m' := total % 12 + 1
    daysFromCivil y' m' (min d (daysInMonth y' m'))

/-! ## Data model -/

/-- Session lifecycle status (status ENUM of the Session model). -/
inductive SessionStatus
  | Scheduled
  | Completed
  | Cancelled
  | Rescheduled
  deriving DecidableEq

/-- A persisted session row.  scheduled_datetime is in minutes since epoch. -/
structure Session where
  id : Nat
  batch_id : Nat
  session_number : Nat
  curriculum_topic : String
  scheduled_datetime : Int
  assigned_tutor_id : Nat
  status : SessionStatus
  tutor_notes : Option String
  deriving DecidableEq

/-- One weekly-pattern entry: schedule format [ day: "Thursday", time: "16:00" ];
the time string is already split into hour and minute as the code does with
parseInt on both halves. -/
structure ScheduleItem where
  day : String
  hour : Nat
  minute : Nat
  deriving DecidableEq

/-- One curriculum entry of a course: topic for a given session number. -/
structure CurriculumItem where
  session : Nat
  topic : String
  deriving DecidableEq

/-- Weekday names as produced by moment format "dddd", indexed Sunday = 0. -/
def weekdayNames : List String :=
  ["Sunday", "Monday", "Tuesday", "Wednesday", "Thursday", "Friday", "Saturday"]

/-- Weekday name of a day count since epoch; day 0 (1970-01-01) was a Thursday. -/
def dayName (day : Nat) : String :=
  weekdayNames.getD ((day + 4) % 7) ""

/-! ## SchedulingService (services/scheduling.js) -/

/-- Holiday check of SchedulingService.isHoliday: the MM-DD string of the
date is one of 01-26, 08-15, 10-02. -/
def isHoliday (t : Nat) : Bool :=
  match civilFromDays (t / 1440) with
  | (_, m, d) => (m == 1 && d == 26) || (m == 8 && d == 15) || (m == 10 && d == 2)

/-- Conflict query of SchedulingService.hasTutorConflict: some session of the
tutor with status Scheduled or Completed lies in the closed window from 30
minutes before to 90 minutes after the candidate instant. -/
def hasTutorConflict (sessions : List Session) (dt : Int) (tutorId : Nat) : Bool :=
  sessions.any fun s =>
    s.assigned_tutor_id == tutorId &&
    decide (dt - 30 ≤ s.scheduled_datetime) &&
    decide (s.scheduled_datetime ≤ dt + 90) &&
    decide (s.status = SessionStatus.Scheduled ∨ s.status = SessionStatus.Completed)

/-- Validity filter of SchedulingService.isValidSessionDateTime: not a
holiday, no tutor conflict against the already-persisted sessions, and the
hour is within business hours (rejected when hour below 9 or above 21). -/
def isValidSessionDateTime (t : Nat) (tutorId : Nat) (existing : List Session) : Bool :=
  !isHoliday t &&
  !hasTutorConflict existing (t : Int) tutorId &&
  (let hour := t % 1440 / 60
   !(hour < 9) && !(21 < hour))

/-- Topic lookup of SchedulingService.getCurriculumTopic; a missing or empty
curriculum falls back to the generic label. -/
def getCurriculumTopic (curriculum : List CurriculumItem) (n : Nat) : String :=
  match curriculum.find? (fun i => i.session == n) with
  | some i => i.topic
  | none => "Session " ++ toString n

/-- Day-scan loop of SchedulingService.findNextValidSessionDate: from the
given day index, up to fuel days, find the first day whose weekday name has
a schedule entry and whose entry time is strictly after now. -/
def findNextGo (schedule : List ScheduleItem) (now : Nat) : Nat → Nat → Option Nat
  | 0, _ => none
  | fuel + 1, day =>
    match schedule.find? (fun s => s.day == dayName day) with
    | some item =>
      let c := day * 1440 + (item.hour * 60 + item.minute)
      if now < c then some c else findNextGo schedule now fuel (day + 1)
    | none => findNextGo schedule now fuel (day + 1)

/-- SchedulingService.findNextValidSessionDate: scan up to 14 days starting
at fromDate's calendar day; now is the wall clock instant moment() reads at
invocation time. -/
def findNextValidSessionDate (fromDate : Nat) (schedule : List ScheduleItem) (now : Nat) : Option Nat :=
  findNextGo schedule now 14 (fromDate / 1440)

/-- A session draft produced by the generator, before persistence. -/
structure SessionDraft where
  batch_id : Nat
  session_number : Nat
  curriculum_topic : String
  scheduled_datetime : Nat
  assigned_tutor_id : Nat
  status : SessionStatus
  deriving DecidableEq

/-- Inputs of SchedulingService.generateBatchSessions, together with the
wall clock now read by moment() and the sessions already persisted (these
feed the tutor-conflict query). -/
structure BatchConfig where
  batch_id : Nat
  start_date : Nat
  session_count : Nat
  schedule : List ScheduleItem
  tutor_id : Nat
  curriculum : List CurriculumItem
  now : Nat
  existing : List Session
  deriving DecidableEq

/-- Error thrown by the generator's safety check. -/
def scheduleErrorMsg : String :=
  "Unable to schedule all sessions within reasonable timeframe"

/-- Marker for loop-fuel exhaustion.  The fuel passed by
generateBatchSessions provably suffices (see genGo_ne_fuelErrorMsg), so this
branch is unreachable; it only makes the recursion structural. -/
def fuelErrorMsg : String := "SCHEDULER_FUEL_EXHAUSTED"

/-- Loop body of SchedulingService.generateBatchSessions.  Each iteration
finds the next candidate date; if it passes the validity filter a draft is
pushed and the session number advances; the cursor then moves one day past
the candidate (or one day forward when no candidate was found), and the
safety check aborts once the cursor reaches thirteen calendar months past
the start date (that is when moment's month diff first exceeds 12). -/
def genGo (cfg : BatchConfig) (deadline : Nat) :
    Nat → Nat → Nat → List SessionDraft → Except String (List SessionDraft)
  | 0, _, _, _ => .error fuelErrorMsg
  | fuel + 1, current, n, acc =>
    if cfg.session_count < n then .ok acc.reverse
    else
      match findNextValidSessionDate current cfg.schedule cfg.now with
      | some c =>
        let push := isValidSessionDateTime c cfg.tutor_id cfg.existing
        let n' := if push then n + 1 else n
        let acc' :=
          if push then
            { batch_id := cfg.batch_id
              session_number := n
              curriculum_topic := getCurriculumTopic cfg.curriculum n
              scheduled_datetime := c
              assigned_tutor_id := cfg.tutor_id
              status := SessionStatus.Scheduled } :: acc
          else acc
        let current' := c + 1440
        if deadline ≤ current' then .error scheduleErrorMsg
        else genGo cfg deadline fuel current' n' acc'
      | none =>
        let current' := current + 1440
        if deadline ≤ current' then .error scheduleErrorMsg
        else genGo cfg deadline fuel current' n acc

/-- Instant thirteen calendar months after the start date (same time of
day); the generator's safety check fires exactly when the cursor has
reached this instant. -/
def genDeadline (cfg : BatchConfig) : Nat :=
  addThirteenMonths (cfg.start_date / 1440) * 1440 + cfg.start_date % 1440

/-- SchedulingService.generateBatchSessions: run the scheduling loop from
the start date with session numbers from 1.  The fuel is an upper bound on
the number of loop iterations (each iteration advances the cursor by at
least one calendar day, and the safety check aborts at thirteen months). -/
def generateBatchSessions (cfg : BatchConfig) : Except String (List SessionDraft) :=
  genGo cfg (genDeadline cfg) (addThirteenMonths (cfg.start_date / 1440) + 2)
    cfg.start_date 1 []

/-! ## Session lifecycle routes (routes/admin.js)

Each handler is a function from the session table (a list of rows) to a
result together with the table after the handler ran; every database write
of the source is threaded in source order. -/

/-- Error outcomes of the session routes, by the HTTP response the source
sends: notFound for the 404, invalidTransition for the 400 on cancelling a
completed session, schedulingConflict for the 400 time-conflict rejection. -/
inductive RouteError
  | notFound
  | invalidTransition
  | schedulingConflict
  deriving DecidableEq

/-- Cascade revision of PUT /sessions/:id/reschedule (the first-registered
handler): move the session to the new date-time, set its status to
Rescheduled and overwrite its notes; then, when the time delta is nonzero,
shift every Scheduled session of the same batch with a larger
session_number by the same delta. -/
def rescheduleCascade (state : List Session) (sessionId : Nat) (newDT : Int)
    (reason : Option String) : Except RouteError Unit × List Session :=
  match state.find? (fun t => t.id == sessionId) with
  | none => (.error .notFound, state)
  | some s =>
    let delta : Int := newDT - s.scheduled_datetime
    let state1 := state.map fun t =>
      if t.id = sessionId then
        { t with scheduled_datetime := newDT, status := SessionStatus.Rescheduled,
                 tutor_notes := some (reason.getD "Rescheduled by admin") }
      else t
    let state2 :=
      if delta = 0 then state1
      else state1.map fun t =>
        if t.batch_id = s.batch_id ∧ s.session_number < t.session_number ∧
            t.status = SessionStatus.Scheduled then
          { t with scheduled_datetime := t.scheduled_datetime + delta }
        else t
    (.ok (), state2)

/-- Conflict-checking revision of PUT /sessions/:id/reschedule (the later,
second-registered handler): reject with a 400 when some other session of
the same tutor with status Scheduled lies within 30 minutes before and 90
minutes after the new date-time; otherwise move the session, set status
Rescheduled and append to its notes. -/
def rescheduleSingle (state : List Session) (sessionId : Nat) (newDT : Int)
    (reason : Option String) : Except RouteError Unit × List Session :=
  match state.find? (fun t => t.id == sessionId) with
  | none => (.error .notFound, state)
  | some s =>
    let conflict := state.any fun t =>
      t.assigned_tutor_id == s.assigned_tutor_id &&
      decide (newDT - 30 ≤ t.scheduled_datetime) &&
      decide (t.scheduled_datetime ≤ newDT + 90) &&
      t.status == SessionStatus.Scheduled &&
      t.id != sessionId
    if conflict then (.error .schedulingConflict, state)
    else
      let tail := "Rescheduled: " ++ reason.getD "No reason provided"
      (.ok (), state.map fun t =>
        if t.id = sessionId then
          { t with scheduled_datetime := newDT, status := SessionStatus.Rescheduled,
                   tutor_notes := some (match t.tutor_notes with
                     | some old => old ++ "\n\n" ++ tail
                     | none => tail) }
        else t)

/-- PUT /sessions/:id/cancel: rejected with a 400 only when the session is
already Completed; otherwise the session is set to Cancelled (from any
other status, including Cancelled itself) and the reason appended to its
notes. -/
def cancelSession (state : List Session) (sessionId : Nat)
    (reason : Option String) : Except RouteError Unit × List Session :=
  match state.find? (fun t => t.id == sessionId) with
  | none => (.error .notFound, state)
  | some s =>
    if s.status = SessionStatus.Completed then (.error .invalidTransition, state)
    else
      let tail := "Cancelled: " ++ reason.getD "No reason provided"
      (.ok (), state.map fun t =>
        if t.id = sessionId then
          { t with status := SessionStatus.Cancelled,
                   tutor_notes := some (match t.tutor_notes with
                     | some old => old ++ "\n\n" ++ tail
                     | none => tail) }
        else t)

/-! ## Batch creation (POST /batches, scheduling-service revision) -/

/-- Course rows consumed by batch creation. -/
structure Course where
  id : Nat
  name : String
  suggested_sessions : Nat
  curriculum : List CurriculumItem
  deriving DecidableEq

/-- Batch lifecycle status. -/
inductive BatchStatus
  | Active
  | Paused
  | Completed
  | Cancelled
  deriving DecidableEq

/-- A persisted batch row (the fields written by the route). -/
structure BatchRec where
  id : Nat
  course_id : Nat
  batch_number : Nat
  batch_name : String
  start_date : Nat
  current_tutor_id : Nat
  max_students : Nat
  schedule : List ScheduleItem
  status : BatchStatus
  total_sessions : Nat
  deriving DecidableEq

/-- Persistent store touched by batch creation. -/
structure AdminState where
  courses : List Course
  batches : List BatchRec
  sessions : List Session
  deriving DecidableEq

/-- Request body of POST /batches. -/
structure CreateBatchReq where
  course_id : Nat
  start_date : Nat
  schedule : List ScheduleItem
  current_tutor_id : Nat
  max_students : Nat
  total_sessions : Option Nat
  deriving DecidableEq

/-- JavaScript a or-else b for numbers: 0 (and absence) is falsy. -/
def orFalsy (v : Option Nat) (d : Nat) : Nat :=
  match v with
  | some n => if n = 0 then d else n
  | none => d

/-- Target session count of a new batch: total_sessions from the request,
else the course's suggested_sessions, else 8 (all via JS truthiness). -/
def batchSessionCount (req : CreateBatchReq) (course : Course) : Nat :=
  orFalsy req.total_sessions (orFalsy (some course.suggested_sessions) 8)

/-- Next batch number for a course: highest existing number (0 when the
course has no batch yet) plus one. -/
def nextBatchNumber (batches : List BatchRec) (courseId : Nat) : Nat :=
  ((batches.filter (fun b => b.course_id == courseId)).map
    (fun b => b.batch_number)).foldr max 0 + 1

/-- The batch row written by Batch.create in POST /batches. -/
def mkBatchRec (req : CreateBatchReq) (course : Course) (batches : List BatchRec)
    (newBatchId : Nat) : BatchRec :=
  { id := newBatchId
    course_id := req.course_id
    batch_number := nextBatchNumber batches req.course_id
    batch_name := course.name ++ " - Batch #" ++ toString (nextBatchNumber batches req.course_id)
    start_date := req.start_date
    current_tutor_id := req.current_tutor_id
    max_students := req.max_students
    schedule := req.schedule
    status := BatchStatus.Active
    total_sessions := batchSessionCount req course }

/-- Row persisted by Session.bulkCreate for one generated draft. -/
def draftToSession (id : Nat) (d : SessionDraft) : Session :=
  { id := id
    batch_id := d.batch_id
    session_number := d.session_number
    curriculum_topic := d.curriculum_topic
    scheduled_datetime := (d.scheduled_datetime : Int)
    assigned_tutor_id := d.assigned_tutor_id
    status := d.status
    tutor_notes := none }

/-- POST /batches (the revision that calls SchedulingService): look up the
course, persist the batch row, then generate the session drafts and bulk
insert them.  The generator runs after Batch.create and outside any
transaction, so when it throws, the route answers 500 with the batch row
already persisted and no sessions.  The per-draft meet-link enrichment is
an external call whose failures the route swallows; it is a no-op here.
newBatchId and newSessionIdBase stand for the UUIDs the store generates;
now is the wall clock at request time. -/
def createBatch (st : AdminState) (req : CreateBatchReq) (newBatchId : Nat)
    (newSessionIdBase : Nat) (now : Nat) :
    Except String Unit × AdminState :=
  match st.courses.find? (fun c => c.id == req.course_id) with
  | none => (.error "Course not found", st)
  | some course =>
    let batch := mkBatchRec req course st.batches newBatchId
    let st1 : AdminState := { st with batches := st.batches ++ [batch] }
    match generateBatchSessions
        { batch_id := newBatchId
          start_date := req.start_date
          session_count := batchSessionCount req course
          schedule := req.schedule
          tutor_id := req.current_tutor_id
          curriculum := course.curriculum
          now := now
          existing := st.sessions } with
    | .error _ => (.error "Failed to create batch", st1)
    | .ok drafts =>
      (.ok (), { st1 with
        sessions := st1.sessions ++
          drafts.enum.map (fun p => draftToSession (newSessionIdBase + p.1) p.2) })

/-! ## Student dashboard progress (routes/session.js) -/

/-- Progress entry computed per enrollment by the student dashboard. -/
structure ProgressEntry where
  total_sessions : Nat
  completed_sessions : Nat
  progress_percentage : Nat
  deriving DecidableEq

/-- Progress computation of GET dashboard in routes/session.js: total is a
plain count of all session rows of the batch (no status filter), completed
counts the Completed ones, and the percentage is the rounded ratio.
Math.round(x) for nonnegative x is floor(x + 1/2), here (200c + t) / (2t). -/
def studentBatchProgress (sessions : List Session) (batchId : Nat) : ProgressEntry :=
  let total := (sessions.filter (fun s => s.batch_id == batchId)).length
  let completed := (sessions.filter
    (fun s => s.batch_id == batchId && s.status == SessionStatus.Completed)).length
  { total_sessions := total
    completed_sessions := completed
    progress_percentage := if 0 < total then (200 * completed + total) / (2 * total) else 0 }

/-- Modelled from the spec: the Batch Progress Aggregator's totalActive,
defined there as the count of the batch's sessions with status distinct
from Rescheduled.  The repository has no definition of this name; this is
the comparison point for the dashboard's actual total count. -/
def specTotalActive (sessions : List Session) (batchId : Nat) : Nat :=
  (sessions.filter
    (fun s => s.batch_id == batchId && !(s.status == SessionStatus.Rescheduled))).length

/-! ## User.getSecureView (User model) -/

/-- A user row (the fields getSecureView reads). -/
structure User where
  id : Nat
  email : String
  first_name : String
  last_name : String
  role : String
  phone : Option String
  timezone : String
  profile_data : String
  is_active : Bool
  created_at : Nat
  deriving DecidableEq

/-- The JSON object getSecureView returns.  Fields absent from the
non-admin view are modelled as none. -/
structure SecureView where
  id : Nat
  first_name : String
  role : String
  is_active : Bool
  last_name : String
  email : Option String
  phone : Option (Option String)
  timezone : Option String
  profile_data : Option String
  created_at : Option Nat
  deriving DecidableEq

/-- User.prototype.getSecureView: admins receive every field; any other
viewer role receives only id, first_name, role, is_active and the last
name abbreviated to its first character plus a dot (empty when the last
name is empty, JS truthiness). -/
def getSecureView (u : User) (viewerRole : String) : SecureView :=
  if viewerRole = "admin" then
    { id := u.id, first_name := u.first_name, role := u.role, is_active := u.is_active,
      last_name := u.last_name, email := some u.email, phone := some u.phone,
      timezone := some u.timezone, profile_data := some u.profile_data,
      created_at := some u.created_at }
  else
    { id := u.id, first_name := u.first_name, role := u.role, is_active := u.is_active,
      last_name := if u.last_name = "" then "" else u.last_name.take 1 ++ ".",
      email := none, phone := none, timezone := none, profile_data := none,
      created_at := none }

/-! ## Lemmas about the pattern scan -/

theorem findNextGo_spec {schedule : List ScheduleItem} {now : Nat} :
    ∀ {fuel day c : Nat}, findNextGo schedule now fuel day = some c →
    ∃ d item, day ≤ d ∧ item ∈ schedule ∧ item.day = dayName d ∧
      c = d * 1440 + (item.hour * 60 + item.minute) ∧ now < c := by
  intro fuel
  induction fuel with
  | zero => intro day c h; simp [findNextGo] at h
  | succ fuel ih =>
    intro day c h
    rw [findNextGo] at h
    cases hf : schedule.find? (fun s => s.day == dayName day) with
    | none =>
      rw [hf] at h
      obtain ⟨d, item, hd, hmem, hday, hc, hnow⟩ := ih h
      exact ⟨d, item, by omega, hmem, hday, hc, hnow⟩
    | some item =>
      rw [hf] at h
      dsimp only at h
      by_cases hlt : now < day * 1440 + (item.hour * 60 + item.minute)
      · rw [if_pos hlt] at h
        have hmem := List.mem_of_find?_eq_some hf
        have hpred := List.find?_some hf
        have hday : item.day = dayName day := by
          simpa using hpred
        have hc : day * 1440 + (item.hour * 60 + item.minute) = c := Option.some_inj.mp h
        exact ⟨day, item, le_refl day, hmem, hday, hc.symm, hc ▸ hlt⟩
      · rw [if_neg hlt] at h
        obtain ⟨d, item', hd, hmem, hday, hc, hnow⟩ := ih h
        exact ⟨d, item', by omega, hmem, hday, hc, hnow⟩

theorem findNext_spec {fromDate schedule now c}
    (h : findNextValidSessionDate fromDate schedule now = some c) :
    ∃ d item, fromDate / 1440 ≤ d ∧ item ∈ schedule ∧ item.day = dayName d ∧
      c = d * 1440 + (item.hour * 60 + item.minute) ∧ now < c :=
  findNextGo_spec h

theorem findNext_ge {fromDate schedule now c}
    (h : findNextValidSessionDate fromDate schedule now = some c) :
    fromDate / 1440 * 1440 ≤ c := by
  obtain ⟨d, item, hd, -, -, hc, -⟩ := findNext_spec h
  have : fromDate / 1440 * 1440 ≤ d * 1440 := Nat.mul_le_mul_right 1440 hd
  omega

/-! ## Lemmas about the generator loop -/

/-- A draft lies on one of the pattern's weekday/time pairs. -/
def draftMatches (cfg : BatchConfig) (d : SessionDraft) : Prop :=
  ∃ item ∈ cfg.schedule, item.day = dayName (d.scheduled_datetime / 1440) ∧
    d.scheduled_datetime % 1440 = item.hour * 60 + item.minute

theorem genGo_ok_count (cfg : BatchConfig) (deadline : Nat) :
    ∀ {fuel current n acc l},
    genGo cfg deadline fuel current n acc = .ok l →
    1 ≤ n → n ≤ cfg.session_count + 1 →
    acc.length + 1 = n →
    acc.map (fun d => d.session_number) = (List.range' 1 (n - 1)).reverse →
    (∀ d ∈ acc, d.scheduled_datetime + 1440 < deadline) →
    l.length = cfg.session_count ∧
    l.map (fun d => d.session_number) = List.range' 1 cfg.session_count ∧
    ∀ d ∈ l, d.scheduled_datetime + 1440 < deadline := by
  intro fuel
  induction fuel with
  | zero => intro current n acc l h _ _ _ _ _; simp [genGo] at h
  | succ fuel ih =>
    intro current n acc l h h1 h2 h3 h4 h5
    rw [genGo] at h
    by_cases hstop : cfg.session_count < n
    · rw [if_pos hstop] at h
      have hl : acc.reverse = l := Option.some_inj.mp (by simpa using h)
      have hn : n = cfg.session_count + 1 := by omega
      subst hl
      refine ⟨by simp; omega, ?_, ?_⟩
      · rw [List.map_reverse, h4, List.reverse_reverse]
        congr 1
        omega
      · intro d hd; exact h5 d (List.mem_reverse.mp hd)
    · rw [if_neg hstop] at h
      cases hf : findNextValidSessionDate current cfg.schedule cfg.now with
      | some c =>
        rw [hf] at h
        dsimp only at h
        by_cases hdl : deadline ≤ c + 1440
        · rw [if_pos hdl] at h; simp at h
        · rw [if_neg hdl] at h
          by_cases hp : isValidSessionDateTime c cfg.tutor_id cfg.existing = true
          · rw [if_pos hp, if_pos hp] at h
            refine ih h (by omega) (by omega) (by simp; omega) ?_ ?_
            · have hn1 : n + 1 - 1 = (n - 1) + 1 := by omega
              rw [hn1, List.range'_1_concat, List.reverse_append]
              simp only [List.map_cons, h4, List.reverse_singleton, List.singleton_append]
              congr 1
              omega
            · intro d hd
              rcases List.mem_cons.mp hd with hd | hd
              · subst hd; simpa using by omega
              · exact h5 d hd
          · rw [if_neg hp, if_neg hp] at h
            exact ih h h1 h2 h3 h4 h5
      | none =>
        rw [hf] at h
        dsimp only at h
        by_cases hdl : deadline ≤ current + 1440
        · rw [if_pos hdl] at h; simp at h
        · rw [if_neg hdl] at h
          exact ih h h1 h2 h3 h4 h5

theorem genGo_ok_sorted (cfg : BatchConfig) (deadline : Nat)
    (hv : ∀ item ∈ cfg.schedule, item.hour * 60 + item.minute < 1440) :
    ∀ {fuel current n acc l},
    genGo cfg deadline fuel current n acc = .ok l →
    List.Pairwise (fun a b => b.scheduled_datetime < a.scheduled_datetime) acc →
    (∀ d ∈ acc, d.scheduled_datetime < current / 1440 * 1440) →
    (∀ d ∈ acc, draftMatches cfg d) →
    List.Pairwise (fun a b => a.scheduled_datetime < b.scheduled_datetime) l ∧
    ∀ d ∈ l, draftMatches cfg d := by
  intro fuel
  induction fuel with
  | zero => intro current n acc l h _ _ _; simp [genGo] at h
  | succ fuel ih =>
    intro current n acc l h hpw hbd hmt
    rw [genGo] at h
    by_cases hstop : cfg.session_count < n
    · rw [if_pos hstop] at h
      have hl : acc.reverse = l := Option.some_inj.mp (by simpa using h)
      subst hl
      constructor
      · rw [List.pairwise_reverse]
        exact hpw
      · intro d hd; exact hmt d (List.mem_reverse.mp hd)
    · rw [if_neg hstop] at h
      cases hf : findNextValidSessionDate current cfg.schedule cfg.now with
      | some c =>
        rw [hf] at h
        dsimp only at h
        have hge : current / 1440 * 1440 ≤ c := findNext_ge hf
        by_cases hdl : deadline ≤ c + 1440
        · rw [if_pos hdl] at h; simp at h
        · rw [if_neg hdl] at h
          by_cases hp : isValidSessionDateTime c cfg.tutor_id cfg.existing = true
          · rw [if_pos hp, if_pos hp] at h
            refine ih h ?_ ?_ ?_
            · rw [List.pairwise_cons]
              exact ⟨fun d hd => by have := hbd d hd; simpa using by omega, hpw⟩
            · intro d hd
              rcases List.mem_cons.mp hd with hd | hd
              · subst hd; simpa using by omega
              · have := hbd d hd; omega
            · intro d hd
              rcases List.mem_cons.mp hd with hd | hd
              · subst hd
                obtain ⟨d0, item, hd0, hmem, hday, hc, -⟩ := findNext_spec hf
                have ht : item.hour * 60 + item.minute < 1440 := hv item hmem
                refine ⟨item, hmem, ?_, ?_⟩
                · have : c / 1440 = d0 := by omega
                  simpa [this] using hday
                · simpa using by omega
              · exact hmt d hd
          · rw [if_neg hp, if_neg hp] at h
            refine ih h hpw ?_ hmt
            intro d hd
            have := hbd d hd
            omega
      | none =>
        rw [hf] at h
        dsimp only at h
        by_cases hdl : deadline ≤ current + 1440
        · rw [if_pos hdl] at h; simp at h
        · rw [if_neg hdl] at h
          refine ih h hpw ?_ hmt
          intro d hd
          have := hbd d hd
          omega

theorem genGo_error_msg (cfg : BatchConfig) (deadline : Nat) :
    ∀ {fuel current n acc e},
    genGo cfg deadline fuel current n acc = .error e →
    deadline / 1440 + 2 ≤ current / 1440 + fuel →
    current / 1440 ≤ deadline / 1440 + 1 →
    e = scheduleErrorMsg := by
  intro fuel
  induction fuel with
  | zero =>
    intro current n acc e h hfuel hcur
    omega
  | succ fuel ih =>
    intro current n acc e h hfuel hcur
    rw [genGo] at h
    by_cases hstop : cfg.session_count < n
    · rw [if_pos hstop] at h; simp at h
    · rw [if_neg hstop] at h
      cases hf : findNextValidSessionDate current cfg.schedule cfg.now with
      | some c =>
        rw [hf] at h
        dsimp only at h
        have hge : current / 1440 * 1440 ≤ c := findNext_ge hf
        by_cases hdl : deadline ≤ c + 1440
        · rw [if_pos hdl] at h
          simp only [Except.error.injEq] at h
          exact h.symm
        · rw [if_neg hdl] at h
          by_cases hp : isValidSessionDateTime c cfg.tutor_id cfg.existing = true
          · rw [if_pos hp, if_pos hp] at h
            exact ih h (by omega) (by omega)
          · rw [if_neg hp, if_neg hp] at h
            exact ih h (by omega) (by omega)
      | none =>
        rw [hf] at h
        dsimp only at h
        by_cases hdl : deadline ≤ current + 1440
        · rw [if_pos hdl] at h
          simp only [Except.error.injEq] at h
          exact h.symm
        · rw [if_neg hdl] at h
          exact ih h (by omega) (by omega)

theorem generateBatchSessions_error_msg {cfg : BatchConfig} {e : String}
    (h : generateBatchSessions cfg = .error e) : e = scheduleErrorMsg := by
  have hdd : genDeadline cfg / 1440 = addThirteenMonths (cfg.start_date / 1440) := by
    unfold genDeadline
    omega
  by_cases hcal : cfg.start_date / 1440 ≤ genDeadline cfg / 1440 + 1
  · exact genGo_error_msg cfg (genDeadline cfg) h (by omega) hcal
  · unfold generateBatchSessions at h
    have hfuel : addThirteenMonths (cfg.start_date / 1440) + 2 =
        (addThirteenMonths (cfg.start_date / 1440) + 1) + 1 := rfl
    rw [hfuel, genGo] at h
    by_cases hstop : cfg.session_count < 1
    · rw [if_pos hstop] at h; simp at h
    · rw [if_neg hstop] at h
      have hstart : cfg.start_date / 1440 * 1440 ≤ cfg.start_date := Nat.div_mul_le_self _ _
      have hdlt : genDeadline cfg < cfg.start_date / 1440 * 1440 := by omega
      cases hf : findNextValidSessionDate cfg.start_date cfg.schedule cfg.now with
      | some c =>
        rw [hf] at h
        dsimp only at h
        have hge : cfg.start_date / 1440 * 1440 ≤ c := findNext_ge hf
        rw [if_pos (by omega)] at h
        simpa using (by simpa using h : scheduleErrorMsg = e).symm
      | none =>
        rw [hf] at h
        dsimp only at h
        rw [if_pos (by omega)] at h
        simpa using (by simpa using h : scheduleErrorMsg = e).symm

theorem findNextGo_now_congr {schedule : List ScheduleItem} {now₁ now₂ : Nat} :
    ∀ {fuel day : Nat}, now₁ < day * 1440 → now₂ < day * 1440 →
    findNextGo schedule now₁ fuel day = findNextGo schedule now₂ fuel day := by
  intro fuel
  induction fuel with
  | zero => intros; rfl
  | succ fuel ih =>
    intro day h₁ h₂
    rw [findNextGo, findNextGo]
    cases hf : schedule.find? (fun s => s.day == dayName day) with
    | none =>
      exact ih (by omega) (by omega)
    | some item =>
      dsimp only
      rw [if_pos (show now₁ < day * 1440 + (item.hour * 60 + item.minute) by omega),
        if_pos (show now₂ < day * 1440 + (item.hour * 60 + item.minute) by omega)]

/-! ## Claim C1 -/

/-- C1 (amended): whenever generateBatchSessions returns a draft list (it
can instead abort with the safety-bound error, producing no drafts: see the
counterexample), the list has exactly session_count drafts, their session
numbers are 1..session_count in order, their date-times are strictly
increasing, and each draft falls on one of the pattern's (weekday, time)
pairs.  The pattern validity hypothesis says each entry encodes a
time-of-day. -/
theorem c1_generate_ok_contract (cfg : BatchConfig) (l : List SessionDraft)
    (hv : ∀ item ∈ cfg.schedule, item.hour * 60 + item.minute < 1440)
    (hok : generateBatchSessions cfg = .ok l) :
    l.length = cfg.session_count ∧
    l.map (fun d => d.session_number) = List.range' 1 cfg.session_count ∧
    List.Pairwise (fun a b => a.scheduled_datetime < b.scheduled_datetime) l ∧
    ∀ d ∈ l, ∃ item ∈ cfg.schedule, item.day = dayName (d.scheduled_datetime / 1440) ∧
      d.scheduled_datetime % 1440 = item.hour * 60 + item.minute := by
  unfold generateBatchSessions at hok
  have hcount := genGo_ok_count cfg (genDeadline cfg) hok (by norm_num) (by omega)
    (by simp) (by simp) (by simp)
  have hsorted := genGo_ok_sorted cfg (genDeadline cfg) hv hok (by simp) (by simp) (by simp)
  exact ⟨hcount.1, hcount.2.1, hsorted.1, fun d hd => hsorted.2 d hd⟩

/-- Configuration with a well-formed non-empty pattern whose time of day
(22:00) never passes the business-hours filter. -/
def c1FailCfg : BatchConfig :=
  { batch_id := 1, start_date := 0, session_count := 1,
    schedule := [⟨"Thursday", 22, 0⟩], tutor_id := 7, curriculum := [],
    now := 0, existing := [] }

set_option maxRecDepth 40000 in
/-- C1 counterexample: for a valid start instant and a non-empty weekly
pattern (Thursday 22:00) with target count 1, generation does not produce
1 draft; it aborts with the safety-bound error and produces none. -/
theorem c1_counterexample :
    c1FailCfg.schedule ≠ [] ∧ c1FailCfg.session_count = 1 ∧
    generateBatchSessions c1FailCfg = .error scheduleErrorMsg :=
  ⟨by decide, rfl, by rfl⟩

/-- Configuration on which generation succeeds: Thursdays 10:00 from
1970-01-01 (a Thursday), two sessions. -/
def c1OkCfg : BatchConfig :=
  { batch_id := 5, start_date := 0, session_count := 2,
    schedule := [⟨"Thursday", 10, 0⟩], tutor_id := 7, curriculum := [],
    now := 0, existing := [] }

/-- The drafts generated for c1OkCfg. -/
def c1OkOut : List SessionDraft :=
  [⟨5, 1, "Session 1", 600, 7, SessionStatus.Scheduled⟩,
   ⟨5, 2, "Session 2", 10680, 7, SessionStatus.Scheduled⟩]

set_option maxRecDepth 4000 in
/-- Witness for C1: a concrete successful generation satisfying the
contract. -/
theorem c1_witness :
    generateBatchSessions c1OkCfg = .ok c1OkOut ∧
    c1OkOut.length = c1OkCfg.session_count ∧
    c1OkOut.map (fun d => d.session_number) = List.range' 1 c1OkCfg.session_count ∧
    List.Pairwise (fun a b => a.scheduled_datetime < b.scheduled_datetime) c1OkOut ∧
    ∀ d ∈ c1OkOut, ∃ item ∈ c1OkCfg.schedule,
      item.day = dayName (d.scheduled_datetime / 1440) ∧
      d.scheduled_datetime % 1440 = item.hour * 60 + item.minute := by
  have hok : generateBatchSessions c1OkCfg = .ok c1OkOut := by rfl
  have h := c1_generate_ok_contract c1OkCfg c1OkOut (by decide) hok
  exact ⟨hok, h.1, h.2.1, h.2.2.1, h.2.2.2⟩

/-! ## Claim C7 -/

/-- C7 (amended): the day-walk always terminates, and it either places all
session_count sessions (each strictly before the thirteen-calendar-month
deadline, which lies beyond 365 days) or fails with the fixed generic
message that does not report how many sessions were placed. -/
theorem c7_terminate_or_generic_error (cfg : BatchConfig) :
    (∃ l, generateBatchSessions cfg = .ok l ∧ l.length = cfg.session_count ∧
      ∀ d ∈ l, d.scheduled_datetime + 1440 < genDeadline cfg) ∨
    generateBatchSessions cfg = .error scheduleErrorMsg := by
  cases hres : generateBatchSessions cfg with
  | ok l =>
    left
    have hok := hres
    unfold generateBatchSessions at hok
    have h := genGo_ok_count cfg (genDeadline cfg) hok (by norm_num) (by omega)
      (by simp) (by simp) (by simp)
    exact ⟨l, rfl, h.1, h.2.2⟩
  | error e =>
    right
    rw [generateBatchSessions_error_msg hres]

/-- Existing sessions of tutor 7 occupying every Friday 10:00 slot for the
first 53 weeks after 2024-01-05. -/
def c7Blockers : List Session :=
  (List.range 53).map fun k =>
    ⟨100 + k, 99, k + 1, "X", (((19727 + 7 * k) * 1440 + 600 : Nat) : Int), 7,
      SessionStatus.Scheduled, none⟩

/-- One-session batch starting Friday 2024-01-05 (day 19727), pattern
Friday 10:00, with every slot in the first 53 weeks blocked by a tutor
conflict. -/
def c7Cfg : BatchConfig :=
  { batch_id := 6, start_date := 19727 * 1440, session_count := 1,
    schedule := [⟨"Friday", 10, 0⟩], tutor_id := 7, curriculum := [],
    now := 0, existing := c7Blockers }

set_option maxRecDepth 40000 in
set_option maxHeartbeats 2000000 in
/-- C7 counterexample: the target count cannot be placed within 365 days of
the start (every pattern slot there is conflicting), yet the walk does not
fail at a 365-day horizon: it keeps searching and succeeds, placing the
session 371 days after the start. -/
theorem c7_counterexample :
    generateBatchSessions c7Cfg =
      .ok [⟨6, 1, "Session 1", (19727 + 371) * 1440 + 600, 7, SessionStatus.Scheduled⟩] ∧
    c7Cfg.start_date + 365 * 1440 < (19727 + 371) * 1440 + 600 :=
  ⟨by rfl, by decide⟩

/-! ## Claim C9 -/

/-- C9 (amended): the pattern resolver is a pure function of its inputs
plus the wall clock read at invocation (the isAfter check against
moment()), and its output is independent of the wall clock only under the
additional condition that both invocation instants precede the start of
the from-date's calendar day; the counterexample shows the dependence in
general. -/
theorem c9_resolver_now_independence (fromDate : Nat) (schedule : List ScheduleItem)
    (now₁ now₂ : Nat)
    (h₁ : now₁ < fromDate / 1440 * 1440) (h₂ : now₂ < fromDate / 1440 * 1440) :
    findNextValidSessionDate fromDate schedule now₁ =
      findNextValidSessionDate fromDate schedule now₂ :=
  findNextGo_now_congr h₁ h₂

/-- C9 counterexample: identical fromDate and pattern, but two different
invocation wall-clock instants (midnight versus 10:00 of the same
Thursday) give different resolved dates, so the resolver's output depends
on the time it is invoked. -/
theorem c9_counterexample :
    findNextValidSessionDate 0 [⟨"Thursday", 10, 0⟩] 0 ≠
      findNextValidSessionDate 0 [⟨"Thursday", 10, 0⟩] 600 := by
  decide

/-- Witness for C9: the independence theorem applied at a concrete day-one
from-date with two distinct invocation instants before that day's start. -/
theorem c9_witness :
    findNextValidSessionDate 1440 [⟨"Friday", 10, 0⟩] 0 =
      findNextValidSessionDate 1440 [⟨"Friday", 10, 0⟩] 100 :=
  c9_resolver_now_independence 1440 [⟨"Friday", 10, 0⟩] 0 100 (by norm_num) (by norm_num)

/-! ## Claim C2 -/

/-- C2 (amended): a cascade reschedule of the session with the given id
shifts every Scheduled session of the same batch with a larger
session_number by exactly the delta between new and old date-time, leaves
every other session untouched, and moves the target session itself to the
new date-time keeping its session_number — but sets its status to
Rescheduled (not Scheduled) and overwrites its notes. -/
theorem c2_cascade_semantics (state : List Session) (sessionId : Nat) (newDT : Int)
    (reason : Option String) (s : Session)
    (hfind : state.find? (fun t => t.id == sessionId) = some s) :
    rescheduleCascade state sessionId newDT reason =
      (.ok (), state.map fun t =>
        if t.id = sessionId then
          { t with scheduled_datetime := newDT, status := SessionStatus.Rescheduled,
                   tutor_notes := some (reason.getD "Rescheduled by admin") }
        else if t.batch_id = s.batch_id ∧ s.session_number < t.session_number ∧
            t.status = SessionStatus.Scheduled then
          { t with scheduled_datetime := t.scheduled_datetime + (newDT - s.scheduled_datetime) }
        else t) := by
  unfold rescheduleCascade
  rw [hfind]
  dsimp only
  by_cases hδ : newDT - s.scheduled_datetime = 0
  · rw [if_pos hδ]
    simp only [Prod.mk.injEq, true_and]
    apply List.map_congr_left
    intro t ht
    by_cases hid : t.id = sessionId
    · rw [if_pos hid, if_pos hid]
    · rw [if_neg hid, if_neg hid]
      by_cases hc : t.batch_id = s.batch_id ∧ s.session_number < t.session_number ∧
          t.status = SessionStatus.Scheduled
      · rw [if_pos hc, hδ, add_zero]
      · rw [if_neg hc]
  · rw [if_neg hδ]
    simp only [Prod.mk.injEq, true_and]
    rw [List.map_map]
    apply List.map_congr_left
    intro t ht
    simp only [Function.comp_apply]
    by_cases hid : t.id = sessionId
    · rw [if_pos hid, if_pos hid, if_neg (by simp)]
    · rw [if_neg hid, if_neg hid]

/-- Two Scheduled sessions of one batch. -/
def c2State : List Session :=
  [⟨1, 1, 1, "S1", 1000, 7, SessionStatus.Scheduled, none⟩,
   ⟨2, 1, 2, "S2", 2000, 7, SessionStatus.Scheduled, none⟩]

/-- C2 counterexample: cascading session 1 from 1000 to 1500 shifts session
2 by the same delta as claimed, but the moved session does not keep status
Scheduled: the route sets it to Rescheduled. -/
theorem c2_counterexample :
    (rescheduleCascade c2State 1 1500 none).2.map
        (fun t => (t.id, t.scheduled_datetime, t.status)) =
      [(1, (1500 : Int), SessionStatus.Rescheduled),
       (2, (2500 : Int), SessionStatus.Scheduled)] ∧
    SessionStatus.Rescheduled ≠ SessionStatus.Scheduled := by
  decide

/-- Witness for C2: the cascade semantics applied to a concrete state. -/
theorem c2_witness :
    (rescheduleCascade c2State 2 2100 (some "sick") ).1 = .ok () ∧
    (rescheduleCascade c2State 2 2100 (some "sick")).2.map
        (fun t => (t.id, t.scheduled_datetime, t.status)) =
      [(1, (1000 : Int), SessionStatus.Scheduled),
       (2, (2100 : Int), SessionStatus.Rescheduled)] := by
  have h := c2_cascade_semantics c2State 2 2100 (some "sick")
    ⟨2, 1, 2, "S2", 2000, 7, SessionStatus.Scheduled, none⟩ (by rfl)
  rw [h]
  exact ⟨rfl, by decide⟩

/-! ## Claim C3 -/

/-- C3: the scheduling-service conflict check returns true exactly when
some session of the tutor with status Scheduled or Completed has its
date-time T with the candidate inside the symmetric window T - 90 to
T + 30 (equivalently, T inside candidate - 30 to candidate + 90);
Rescheduled and Cancelled sessions never count. -/
theorem c3_conflict_window (sessions : List Session) (dt : Int) (tutorId : Nat) :
    hasTutorConflict sessions dt tutorId = true ↔
      ∃ s ∈ sessions, s.assigned_tutor_id = tutorId ∧
        (s.status = SessionStatus.Scheduled ∨ s.status = SessionStatus.Completed) ∧
        s.scheduled_datetime - 90 ≤ dt ∧ dt ≤ s.scheduled_datetime + 30 := by
  unfold hasTutorConflict
  rw [List.any_eq_true]
  constructor
  · rintro ⟨s, hs, hp⟩
    simp only [Bool.and_eq_true, beq_iff_eq, decide_eq_true_eq] at hp
    exact ⟨s, hs, hp.1.1.1, hp.2, by omega, by omega⟩
  · rintro ⟨s, hs, h1, h2, h3, h4⟩
    refine ⟨s, hs, ?_⟩
    simp only [Bool.and_eq_true, beq_iff_eq, decide_eq_true_eq]
    exact ⟨⟨⟨h1, by omega⟩, by omega⟩, h2⟩

/-! ## Claim C4 -/

/-- C4 (amended): the conflict-checking revision of the reschedule route
does reject with the conflict error and no mutation whenever another
Scheduled session of the same tutor (the session itself excluded) lies in
the window around the new date-time; but the cascade revision of the same
route performs no conflict check at all (see the counterexample). -/
theorem c4_single_conflict_rejected (state : List Session) (sessionId : Nat)
    (newDT : Int) (reason : Option String) (s t : Session)
    (hfind : state.find? (fun x => x.id == sessionId) = some s)
    (ht : t ∈ state) (htid : t.id ≠ sessionId)
    (htut : t.assigned_tutor_id = s.assigned_tutor_id)
    (hw₁ : newDT - 30 ≤ t.scheduled_datetime) (hw₂ : t.scheduled_datetime ≤ newDT + 90)
    (hst : t.status = SessionStatus.Scheduled) :
    rescheduleSingle state sessionId newDT reason = (.error .schedulingConflict, state) := by
  unfold rescheduleSingle
  rw [hfind]
  dsimp only
  have hconf : (state.any fun x =>
      x.assigned_tutor_id == s.assigned_tutor_id &&
      decide (newDT - 30 ≤ x.scheduled_datetime) &&
      decide (x.scheduled_datetime ≤ newDT + 90) &&
      x.status == SessionStatus.Scheduled &&
      x.id != sessionId) = true := by
    rw [List.any_eq_true]
    refine ⟨t, ht, ?_⟩
    simp only [Bool.and_eq_true, beq_iff_eq, decide_eq_true_eq, bne_iff_ne, ne_eq]
    exact ⟨⟨⟨⟨htut, hw₁⟩, hw₂⟩, hst⟩, htid⟩
  rw [if_pos hconf]

/-- Two Scheduled sessions of the same tutor in different batches. -/
def c4State : List Session :=
  [⟨1, 1, 1, "S1", 1000, 7, SessionStatus.Scheduled, none⟩,
   ⟨2, 2, 1, "S2", 1500, 7, SessionStatus.Scheduled, none⟩]

/-- C4 counterexample: the cascade revision of the reschedule route (the
first one Express registers for PUT /sessions/:id/reschedule) reschedules
session 1 exactly onto the other session of the same tutor: the conflict
checker would flag this new time (third conjunct), yet the operation
succeeds and mutates the session instead of failing. -/
theorem c4_counterexample :
    (rescheduleCascade c4State 1 1500 none).1 = .ok () ∧
    (rescheduleCascade c4State 1 1500 none).2.map
        (fun t => (t.id, t.scheduled_datetime, t.status)) =
      [(1, (1500 : Int), SessionStatus.Rescheduled),
       (2, (1500 : Int), SessionStatus.Scheduled)] ∧
    hasTutorConflict [⟨2, 2, 1, "S2", 1500, 7, SessionStatus.Scheduled, none⟩] 1500 7 = true :=
  ⟨by rfl, by decide, by decide⟩

/-- Witness for C4: the conflict rejection applied to a concrete state,
leaving the state unchanged. -/
theorem c4_witness :
    rescheduleSingle c4State 1 1500 none = (.error .schedulingConflict, c4State) :=
  c4_single_conflict_rejected c4State 1 1500 none
    ⟨1, 1, 1, "S1", 1000, 7, SessionStatus.Scheduled, none⟩
    ⟨2, 2, 1, "S2", 1500, 7, SessionStatus.Scheduled, none⟩
    (by rfl) (by decide) (by decide) (by decide) (by decide) (by decide) (by decide)

/-! ## Claim C5 -/

/-- C5 (amended): the cancel route fails (with the invalid-transition
rejection, leaving every session unchanged) exactly when the target
session is Completed; a Cancelled session can be cancelled again, and the
reschedule route applies no status guard at all, so it never fails with an
invalid-transition error on Cancelled or Completed sessions. -/
theorem c5_lifecycle_guards (state : List Session) (sessionId : Nat)
    (reason : Option String) (s : Session)
    (hfind : state.find? (fun t => t.id == sessionId) = some s) :
    ((cancelSession state sessionId reason).1 = .error .invalidTransition ↔
      s.status = SessionStatus.Completed) ∧
    (s.status = SessionStatus.Completed →
      cancelSession state sessionId reason = (.error .invalidTransition, state)) ∧
    ∀ newDT, (rescheduleSingle state sessionId newDT reason).1 ≠
      Except.error RouteError.invalidTransition := by
  refine ⟨?_, ?_, ?_⟩
  · unfold cancelSession
    rw [hfind]
    dsimp only
    by_cases hc : s.status = SessionStatus.Completed
    · rw [if_pos hc]; simp [hc]
    · rw [if_neg hc]; simp [hc]
  · intro hc
    unfold cancelSession
    rw [hfind]
    dsimp only
    rw [if_pos hc]
  · intro newDT
    unfold rescheduleSingle
    rw [hfind]
    dsimp only
    split
    · simp
    · simp

/-- A single Cancelled session. -/
def c5CancelledState : List Session :=
  [⟨1, 1, 1, "S1", 1000, 7, SessionStatus.Cancelled, none⟩]

/-- A single Completed session. -/
def c5CompletedState : List Session :=
  [⟨2, 1, 1, "S1", 1000, 7, SessionStatus.Completed, none⟩]

/-- C5 counterexample: cancelling an already Cancelled session succeeds
(no invalid-transition failure), and rescheduling a Completed session also
succeeds: the route has no status guard. -/
theorem c5_counterexample :
    (cancelSession c5CancelledState 1 none).1 = .ok () ∧
    (rescheduleSingle c5CompletedState 2 9000 none).1 = .ok () :=
  ⟨by rfl, by rfl⟩

/-- Witness for C5: the guard theorem applied to the Completed session:
cancel fails with the invalid-transition rejection and changes nothing,
while reschedule never fails that way. -/
theorem c5_witness :
    cancelSession c5CompletedState 2 none = (.error .invalidTransition, c5CompletedState) ∧
    (rescheduleSingle c5CompletedState 2 9000 none).1 ≠
      Except.error RouteError.invalidTransition := by
  have h := c5_lifecycle_guards c5CompletedState 2 none
    ⟨2, 1, 1, "S1", 1000, 7, SessionStatus.Completed, none⟩ (by rfl)
  exact ⟨h.2.1 rfl, h.2.2 9000⟩

/-! ## Claim C6 -/

/-- C6 (amended): batch creation is not atomic.  The batch row is persisted
by Batch.create before session generation runs and outside any
transaction; whenever the generator fails, the route answers with the
generic failure but the batch row remains persisted while no session row
was written. -/
theorem c6_batch_persisted_on_failure (st : AdminState) (req : CreateBatchReq)
    (newBatchId newSessionIdBase now : Nat) (course : Course) (e : String)
    (hcourse : st.courses.find? (fun c => c.id == req.course_id) = some course)
    (hgen : generateBatchSessions
        { batch_id := newBatchId, start_date := req.start_date,
          session_count := batchSessionCount req course, schedule := req.schedule,
          tutor_id := req.current_tutor_id, curriculum := course.curriculum,
          now := now, existing := st.sessions } = .error e) :
    createBatch st req newBatchId newSessionIdBase now =
      (.error "Failed to create batch",
       { st with batches := st.batches ++ [mkBatchRec req course st.batches newBatchId] }) := by
  unfold createBatch
  rw [hcourse]
  dsimp only
  rw [hgen]

/-- A course whose default session count is 1. -/
def c6Course : Course := ⟨1, "Chess", 1, []⟩

/-- Store holding only that course: no batches, no sessions. -/
def c6State : AdminState := ⟨[c6Course], [], []⟩

/-- Batch-creation request with an empty weekly pattern, for which session
generation always fails at the safety bound. -/
def c6Req : CreateBatchReq := ⟨1, 19723 * 1440, [], 7, 5, none⟩

set_option maxRecDepth 40000 in
/-- C6 counterexample: on this request the route reports failure, yet the
store afterwards contains the new batch row and zero session rows: the
failure left a batch without its sessions persisted. -/
theorem c6_counterexample :
    (createBatch c6State c6Req 10 100 0).1 = .error "Failed to create batch" ∧
    (createBatch c6State c6Req 10 100 0).2.batches.length = 1 ∧
    (createBatch c6State c6Req 10 100 0).2.sessions.length = 0 :=
  ⟨by rfl, by rfl, by rfl⟩

set_option maxRecDepth 40000 in
/-- Witness for C6: the non-atomicity theorem applied to the concrete
failing request. -/
theorem c6_witness :
    createBatch c6State c6Req 10 100 0 =
      (.error "Failed to create batch",
       { c6State with
          batches := c6State.batches ++ [mkBatchRec c6Req c6Course c6State.batches 10] }) :=
  c6_batch_persisted_on_failure c6State c6Req 10 100 0 c6Course scheduleErrorMsg
    (by rfl) (by rfl)

/-! ## Claim C8 -/

/-- Splitting a batch filter by the Rescheduled status. -/
theorem filterBatchSplit (l : List Session) (b : Nat) :
    (l.filter (fun s => s.batch_id == b)).length =
      (l.filter (fun s => s.batch_id == b &&
        !(s.status == SessionStatus.Rescheduled))).length +
      (l.filter (fun s => s.batch_id == b &&
        (s.status == SessionStatus.Rescheduled))).length := by
  induction l with
  | nil => rfl
  | cons s rest ih =>
    simp only [List.filter_cons]
    cases hb : (s.batch_id == b) <;> cases hr : (s.status == SessionStatus.Rescheduled) <;>
      simp only [hb, hr, Bool.and_true, Bool.and_false, Bool.not_true, Bool.not_false,
        Bool.true_and, Bool.false_and, if_true, if_false, List.length_cons, ite_true,
        ite_false, Bool.false_eq_true, reduceIte] <;> omega

/-- C8 (amended): the dashboard's total session count applies no status
filter, so it equals the spec's totalActive (sessions with status other
than Rescheduled) plus the number of Rescheduled sessions of that batch;
after a supersede-reschedule of one of 5 sessions it therefore reports 6,
not 5 (see the counterexample). -/
theorem c8_total_counts_all_statuses (sessions : List Session) (batchId : Nat) :
    (studentBatchProgress sessions batchId).total_sessions =
      specTotalActive sessions batchId +
        (sessions.filter (fun s => s.batch_id == batchId &&
          (s.status == SessionStatus.Rescheduled))).length := by
  unfold studentBatchProgress specTotalActive
  exact filterBatchSplit sessions batchId

/-- The session set after a supersede-reschedule in a 5-session batch:
session 3 is Rescheduled and its replacement was appended as session 6. -/
def c8Sessions : List Session :=
  [⟨1, 1, 1, "S1", 100, 7, SessionStatus.Completed, none⟩,
   ⟨2, 1, 2, "S2", 200, 7, SessionStatus.Completed, none⟩,
   ⟨3, 1, 3, "S3", 300, 7, SessionStatus.Rescheduled, none⟩,
   ⟨4, 1, 4, "S4", 400, 7, SessionStatus.Scheduled, none⟩,
   ⟨5, 1, 5, "S5", 500, 7, SessionStatus.Scheduled, none⟩,
   ⟨6, 1, 6, "S3", 600, 7, SessionStatus.Scheduled, none⟩]

/-- C8 counterexample: in the supersede scenario of the claim the
dashboard's total is 6, while the count excluding Rescheduled instances is
5: the computation does not exclude Rescheduled sessions. -/
theorem c8_counterexample :
    (studentBatchProgress c8Sessions 1).total_sessions = 6 ∧
    specTotalActive c8Sessions 1 = 5 ∧ (6 : Nat) ≠ 5 := by
  decide

/-! ## Claim C10 -/

/-- C10: for every viewer role other than admin, the secure view exposes
only id, first name, the abbreviated last name, role and activity flag;
email, phone, timezone, profile data and creation date are absent, and two
users agreeing on the exposed source fields produce identical views no
matter how their hidden fields differ. -/
theorem c10_nonadmin_view (u v : User) (viewerRole : String) (hrole : viewerRole ≠ "admin")
    (hid : u.id = v.id) (hfn : u.first_name = v.first_name) (hln : u.last_name = v.last_name)
    (hr : u.role = v.role) (ha : u.is_active = v.is_active) :
    (getSecureView u viewerRole).email = none ∧
    (getSecureView u viewerRole).phone = none ∧
    (getSecureView u viewerRole).timezone = none ∧
    (getSecureView u viewerRole).profile_data = none ∧
    (getSecureView u viewerRole).created_at = none ∧
    (getSecureView u viewerRole).id = u.id ∧
    (getSecureView u viewerRole).first_name = u.first_name ∧
    (getSecureView u viewerRole).role = u.role ∧
    (getSecureView u viewerRole).is_active = u.is_active ∧
    (u.last_name ≠ "" → (getSecureView u viewerRole).last_name = u.last_name.take 1 ++ ".") ∧
    getSecureView u viewerRole = getSecureView v viewerRole := by
  unfold getSecureView
  rw [if_neg hrole, if_neg hrole]
  refine ⟨rfl, rfl, rfl, rfl, rfl, rfl, rfl, rfl, rfl, ?_, ?_⟩
  · intro hne; rw [if_neg hne]
  · rw [hid, hfn, hln, hr, ha]

/-- A user with contact data. -/
def c10u : User :=
  ⟨1, "alice@example.com", "Alice", "Smith", "student", some "111", "Asia/Kolkata", "pd1", true, 0⟩

/-- Same public fields, different email, phone, timezone, profile data and
creation date. -/
def c10v : User :=
  ⟨1, "other@example.org", "Alice", "Smith", "student", none, "UTC", "pd2", true, 99⟩

/-- Witness for C10: concrete non-admin views hide the contact fields,
abbreviate the last name, and coincide across the two users although all
their hidden fields differ. -/
theorem c10_witness :
    (getSecureView c10u "tutor").email = none ∧
    (getSecureView c10u "tutor").last_name = "S." ∧
    getSecureView c10u "tutor" = getSecureView c10v "tutor" := by
  have h := c10_nonadmin_view c10u c10v "tutor" (by decide) rfl rfl rfl rfl rfl
  refine ⟨h.1, ?_, h.2.2.2.2.2.2.2.2.2.2⟩
  have := h.2.2.2.2.2.2.2.2.2.1 (by decide)
  simpa using this

end LearnerCircle
